import Mathlib

/-!
Verification of the anomaly scorers (dowhy/gcm/anomaly_scorers.py) and of the
propensity-score matching estimator
(dowhy/causal_estimators/propensity_score_matching_estimator.py).

Modelling conventions:
* floating-point sample values are modelled as exact rationals; a value that may
  be NaN is `Val := Option ℚ`, with `none` playing the role of NaN
  (incomparable under `<` and `>`, but equal to itself under the numpy call
  `isclose(..., equal_nan=True)`);
* numpy arrays become lists, scored pointwise;
* Python exceptions become `Except String`;
* `np.log` becomes `Real.log` on the exact rational argument; the rational
  argument of each logarithm is kept as a separate computable definition.
-/

/-- A scalar sample value: `some q` is an ordinary float value, `none` is NaN. -/
abbrev Val := Option ℚ

/-- `np.isclose(x, r, rtol=0, atol=0, equal_nan=True)`: exact equality, with
NaN considered equal to NaN. -/
def valEq : Val → Val → Bool
  | some a, some b => a == b
  | none, none => true
  | _, _ => false

/-- Strict `<` on float values: any comparison involving NaN is false. -/
def valLt : Val → Val → Bool
  | some a, some b => a < b
  | _, _ => false

/-- `equal_samples` of `MedianCDFQuantileScorer.score`: the number of reference
samples equal to the query value (NaN equal to NaN). -/
def equal_samples (R : List Val) (x : Val) : ℕ :=
  R.countP (fun r => valEq x r)

/-- `greater_samples` of `MedianCDFQuantileScorer.score`:
`np.sum(X > samples) + equal_samples / 2`, i.e. the number of reference samples
strictly below the query, plus half the equal count. -/
def greater_samples (R : List Val) (x : Val) : ℚ :=
  (R.countP (fun r => valLt r x) : ℚ) + (equal_samples R x : ℚ) / 2

/-- `smaller_samples` of `MedianCDFQuantileScorer.score`:
`np.sum(X < samples) + equal_samples / 2`, i.e. the number of reference samples
strictly above the query, plus half the equal count. -/
def smaller_samples (R : List Val) (x : Val) : ℚ :=
  (R.countP (fun r => valLt x r) : ℚ) + (equal_samples R x : ℚ) / 2

/-- `MedianCDFQuantileScorer.score` for a single query value, given the fitted
reference samples `R`:
`1 - 2 * min(greater_samples, smaller_samples) / len(R)`. -/
def medianCDFQuantileScore (R : List Val) (x : Val) : ℚ :=
  1 - 2 * min (greater_samples R x) (smaller_samples R x) / (R.length : ℚ)

/-- The argument handed to `np.log` by `RescaledMedianCDFQuantileScorer.score`:
`scores = 1 - inner_score(X); scores[scores == 0] = EPS`.
The constant `EPS` lives in `dowhy.gcm.constant`, outside these sources;
modelled from the spec as an arbitrary "small positive epsilon" parameter. -/
def rescaledScoreArg (eps : ℚ) (R : List Val) (x : Val) : ℚ :=
  let s := 1 - medianCDFQuantileScore R x
  if s = 0 then eps else s

/-- `RescaledMedianCDFQuantileScorer.score` for a single query value:
`-np.log` of the clamped complement of the inner score. -/
noncomputable def rescaledMedianCDFQuantileScore (eps : ℚ) (R : List Val) (x : Val) : ℝ :=
  -Real.log (rescaledScoreArg eps R x)

/-- `ITAnomalyScorer.fit`: the stored `_scores_of_distribution_samples`, the
score that the inner scorer assigns to every reference sample.  The fitted inner scorer is
modelled as a pure function `g` from a sample value to its raw score. -/
def itReferenceScores (g : Val → ℚ) (refs : List Val) : List ℚ :=
  refs.map g

/-- The argument handed to `-np.log` by `ITAnomalyScorer.score` for one query
point with inner score `s`:
`(np.sum(reference_scores >= s) + 0.5) / (len(reference_scores) + 0.5)`. -/
def itTailProb (refScores : List ℚ) (s : ℚ) : ℚ :=
  ((refScores.countP (fun t => decide (s ≤ t)) : ℚ) + 1 / 2) / ((refScores.length : ℚ) + 1 / 2)

/-- `ITAnomalyScorer.score` for a single query value, after fitting on `refs`
with fitted inner scorer `g`. -/
noncomputable def itScore (g : Val → ℚ) (refs : List Val) (x : Val) : ℝ :=
  -Real.log (itTailProb (itReferenceScores g refs) (g x))

/-- The message of the `ValueError` raised by the guarded scorers when `score`
is called before `fit`. -/
def notFittedMsg : String := "Scorer has not been fitted!"

/-- The message of the `TypeError` Python raises in `ITAnomalyScorer.score`
when `_scores_of_distribution_samples` is still `None` (no `fit` on the
wrapper) while the wrapped scorer itself is already fitted: the expression
`None >= ndarray` is evaluated. -/
def noneGeMsg : String :=
  "TypeError: comparison >= not supported between instances of NoneType and ndarray"

/-- `MedianCDFQuantileScorer.score` with its not-fitted guard: the state is
`none` before `fit` and `some R` afterwards. -/
def medianCDF_scoreE : Option (List Val) → List Val → Except String (List ℚ)
  | none, _ => .error notFittedMsg
  | some R, X => .ok (X.map (medianCDFQuantileScore R))

/-- `RescaledMedianCDFQuantileScorer.score` delegates to the owned inner
`MedianCDFQuantileScorer` (created unfitted in `__init__`, fitted exactly by
the `fit` of the wrapper); an unfitted inner scorer raises its own not-fitted error.
The `.ok` payload is the list of clamped log-arguments (the score itself is
`-np.log` of each entry). -/
def rescaled_scoreE (eps : ℚ) : Option (List Val) → List Val → Except String (List ℚ)
  | none, _ => .error notFittedMsg
  | some R, X => .ok (X.map (rescaledScoreArg eps R))

/-- `ITAnomalyScorer.score` with its (lack of a) not-fitted guard: the wrapped
scorer is modelled by its `score` behaviour `innerScore` (which may itself be
unfitted and raise), and `refScores` is the stored
`_scores_of_distribution_samples` (`none` before `fit`).  With `refScores =
none` the comparison `None >= scores` raises a `TypeError`.  The `.ok` payload
is the list of tail ratios (the score itself is `-np.log` of each entry). -/
def it_scoreE (innerScore : List Val → Except String (List ℚ))
    (refScores : Option (List ℚ)) (X : List Val) : Except String (List ℚ) :=
  match innerScore X with
  | .error e => .error e
  | .ok ss =>
    match refScores with
    | none => .error noneGeMsg
    | some rs => .ok (ss.map (itTailProb rs))

/-- `MeanDeviationScorer.score` with its not-fitted guard.  `fit` stores
`(np.mean X, np.std X)` (the standard deviation is an external numpy routine
and generally irrational); the state is the stored pair, `none` before `fit`. -/
def meanDeviation_scoreE : Option (ℚ × ℚ) → List ℚ → Except String (List ℚ)
  | none, _ => .error notFittedMsg
  | some (m, s), X => .ok (X.map (fun x => |x - m| / s))

/-- `MedianDeviationScorer.score` with its not-fitted guard.  `fit` stores
`(np.median X, statsmodels mad X)` (the MAD normalisation constant is an
external irrational); the state is the stored pair, `none` before `fit`. -/
def medianDeviation_scoreE : Option (ℚ × ℚ) → List ℚ → Except String (List ℚ)
  | none, _ => .error notFittedMsg
  | some (m, d), X => .ok (X.map (fun x => |x - m| / d))

/-- `InverseDensityScorer.score` with its `_fitted` flag guard; the density
estimator is an external collaborator modelled as a pure per-row function. -/
def inverseDensity_scoreE (density : ℚ → ℚ) : Bool → List ℚ → Except String (List ℚ)
  | false, _ => .error notFittedMsg
  | true, X => .ok (X.map (fun x => 1 / density x))

/-- One row of the observation table handed to
`PropensityScoreMatchingEstimator.estimate_effect`: the treatment column, the
outcome column and the (already attached) propensity score column. -/
structure Row where
  treatment : ℚ
  outcome : ℚ
  propensity : ℚ
deriving DecidableEq

/-- Placeholder row for positional indexing (never read on in-range indices). -/
def defaultRow : Row := ⟨0, 0, 0⟩

/-- `data.loc[data[treatment] == 1]`: the treated partition, selected by
comparing the treatment column with the literal `1`. -/
def treatedRows (data : List Row) : List Row :=
  data.filter (fun r => r.treatment == 1)

/-- `data.loc[data[treatment] == 0]`: the control partition, selected by
comparing the treatment column with the literal `0`. -/
def controlRows (data : List Row) : List Row :=
  data.filter (fun r => r.treatment == 0)

/-- Python division: raises `ZeroDivisionError` on a zero denominator instead
of producing a value. -/
def pydiv (a b : ℚ) : Except String ℚ :=
  if b = 0 then .error "ZeroDivisionError: division by zero" else .ok (a / b)

/-- Index of the 1-nearest neighbour of `q` among the 1-D points `ps`
(absolute-difference distance; first minimiser on ties - the concrete
tie-breaking of the ball tree is implementation defined but deterministic). -/
def nnIdx (ps : List ℚ) (q : ℚ) : ℕ :=
  (List.range ps.length).foldl
    (fun best i => if |ps.getD i 0 - q| < |ps.getD best 0 - q| then i else best) 0

/-- `NearestNeighbors(n_neighbors=1).fit(refPs).kneighbors(qPs)`: the sklearn
input validation raises a `ValueError` on an empty fit array and on an empty
query array; otherwise it returns, for each query point, the index of its
nearest reference point. -/
def kneighbors (refPs qPs : List ℚ) : Except String (List ℕ) :=
  if refPs.length = 0 then
    .error "ValueError: Found array with 0 sample(s) while a minimum of 1 is required."
  else if qPs.length = 0 then
    .error "ValueError: Found array with 0 sample(s) while a minimum of 1 is required by NearestNeighbors."
  else .ok (qPs.map (nnIdx refPs))

/-- The ATT accumulation loop: for each treated row `i`,
`att += treated[i].outcome - control[indices[i]].outcome`. -/
def attSum (treated control : List Row) (idxs : List ℕ) : ℚ :=
  (List.range treated.length).foldl
    (fun acc i =>
      acc + ((treated.getD i defaultRow).outcome
        - (control.getD (idxs.getD i 0) defaultRow).outcome)) 0

/-- The ATC accumulation loop: for each control row `i`,
`atc += treated[indices[i]].outcome - control[i].outcome`. -/
def atcSum (treated control : List Row) (idxs : List ℕ) : ℚ :=
  (List.range control.length).foldl
    (fun acc i =>
      acc + ((treated.getD (idxs.getD i 0) defaultRow).outcome
        - (control.getD i defaultRow).outcome)) 0

/-- Lines 117-152 of `estimate_effect`: partition the data, match each side
against the other, and average the outcome differences, yielding `(att, atc)`;
any sklearn validation error or `ZeroDivisionError` propagates. -/
def computeAttAtc (data : List Row) : Except String (ℚ × ℚ) :=
  let treated := treatedRows data
  let control := controlRows data
  match kneighbors (control.map (fun r => r.propensity)) (treated.map (fun r => r.propensity)) with
  | .error e => .error e
  | .ok cIdx =>
    match pydiv (attSum treated control cIdx) (treated.length : ℚ) with
    | .error e => .error e
    | .ok att =>
      match kneighbors (treated.map (fun r => r.propensity)) (control.map (fun r => r.propensity)) with
      | .error e => .error e
      | .ok tIdx =>
        match pydiv (atcSum treated control tIdx) (control.length : ℚ) with
        | .error e => .error e
        | .ok atc => .ok (att, atc)

/-- Modelled from the spec: `CausalEstimate` (class defined in
`dowhy.causal_estimator`, outside these sources) is "an immutable result
record: point estimate, ..., chosen treatment/control reference values, ...,
and the full propensity-score vector used"; only those fields are kept. -/
structure CausalEstimate where
  estimate : ℚ
  control_value : ℚ
  treatment_value : ℚ
  propensity_scores : List ℚ
deriving DecidableEq

/-- Lines 154-161 of `estimate_effect`: select the point estimate from the
already-computed `att` and `atc` according to `target_units` ("ate" is the
partition-size weighted average); any other value raises a `ValueError` with
the literal message "Target units string value not supported". -/
def selectTargetEst (att atc : ℚ) (numtreatedunits numcontrolunits : ℕ)
    (target_units : String) : Except String ℚ :=
  if target_units = "att" then .ok att
  else if target_units = "atc" then .ok atc
  else if target_units = "ate" then
    pydiv (att * (numtreatedunits : ℚ) + atc * (numcontrolunits : ℚ))
      ((numtreatedunits : ℚ) + (numcontrolunits : ℚ))
  else .error "Target units string value not supported"

/-- `PropensityScoreMatchingEstimator.estimate_effect`: computes `att` and
`atc`, selects per `target_units`, and wraps the estimate in a
`CausalEstimate` that records `treatment_value` and `control_value`. -/
def estimate_effect (data : List Row) (treatment_value control_value : ℚ)
    (target_units : String) : Except String CausalEstimate :=
  match computeAttAtc data with
  | .error e => .error e
  | .ok (att, atc) =>
    match selectTargetEst att atc (treatedRows data).length (controlRows data).length
        target_units with
    | .error e => .error e
    | .ok est =>
      .ok { estimate := est, control_value := control_value,
            treatment_value := treatment_value,
            propensity_scores := data.map (fun r => r.propensity) }

/-- `needle` occurs at the start of `hay`. -/
def leadsL : List Char → List Char → Bool
  | [], _ => true
  | _ :: _, [] => false
  | a :: as, b :: bs => a == b && leadsL as bs

/-- `needle` occurs somewhere inside `hay` (substring test on char lists). -/
def insideL (needle : List Char) : List Char → Bool
  | [] => leadsL needle []
  | h :: t => leadsL needle (h :: t) || insideL needle t

/-- Substring test on strings: does `hay` mention `needle`? -/
def strMentions (hay needle : String) : Bool :=
  insideL needle.toList hay.toList

/-! ### Helper lemmas -/

/-- The three comparison outcomes against a fixed query are mutually exclusive
for every sample value. -/
theorem val_cmp_bound (a x : Val) :
    ((if valLt a x then 1 else 0) + (if valLt x a then 1 else 0)
      + (if valEq x a then 1 else 0) : ℕ) ≤ 1 := by
  rcases a with _ | p <;> rcases x with _ | q
  case none.none => simp [valLt, valEq]
  case none.some => simp [valLt, valEq]
  case some.none => simp [valLt, valEq]
  case some.some =>
    simp only [valLt, valEq, decide_eq_true_eq, beq_iff_eq]
    rcases lt_trichotomy p q with h | h | h
    · rw [if_pos h, if_neg (lt_asymm h),
        if_neg (fun hEq : q = p => absurd (hEq ▸ h) (lt_irrefl p))]
    · subst h
      rw [if_neg (lt_irrefl p), if_pos rfl]
    · rw [if_neg (lt_asymm h), if_pos h,
        if_neg (fun hEq : q = p => absurd (hEq ▸ h) (lt_irrefl p))]

/-- At most `|R|` reference samples are below, above, or equal to the query. -/
theorem valCounts_le (R : List Val) (x : Val) :
    R.countP (fun r => valLt r x) + R.countP (fun r => valLt x r)
      + R.countP (fun r => valEq x r) ≤ R.length := by
  induction R with
  | nil => simp
  | cons a t ih =>
    simp only [List.countP_cons, List.length_cons]
    have h := val_cmp_bound a x
    omega

/-- If a sample is strictly below the query, it is not above it and not equal
to it. -/
theorem valLt_excl (a x : Val) (h : valLt a x = true) :
    valLt x a = false ∧ valEq x a = false := by
  rcases a with _ | p <;> rcases x with _ | q <;>
    simp only [valLt, valEq, decide_eq_true_eq, decide_eq_false_iff_not,
      beq_eq_false_iff_ne, ne_eq, Bool.false_eq_true, and_self, not_false_eq_true] at h ⊢
  exact ⟨lt_asymm h, fun hEq => absurd (hEq ▸ h) (lt_irrefl p)⟩

/-- `greater_samples` is nonnegative. -/
theorem greater_samples_nonneg (R : List Val) (x : Val) : 0 ≤ greater_samples R x := by
  unfold greater_samples
  positivity

/-- `smaller_samples` is nonnegative. -/
theorem smaller_samples_nonneg (R : List Val) (x : Val) : 0 ≤ smaller_samples R x := by
  unfold smaller_samples
  positivity

/-- The median-CDF quantile score never exceeds 1. -/
theorem medianCDFQuantileScore_le_one (R : List Val) (x : Val) :
    medianCDFQuantileScore R x ≤ 1 := by
  unfold medianCDFQuantileScore
  have hmin : 0 ≤ min (greater_samples R x) (smaller_samples R x) :=
    le_min (greater_samples_nonneg R x) (smaller_samples_nonneg R x)
  have hq : 0 ≤ 2 * min (greater_samples R x) (smaller_samples R x) / (R.length : ℚ) := by
    positivity
  linarith

/-! ### Claims about MedianCDFQuantileScorer -/

/-- Claim C1: for a `MedianCDFQuantileScorer` fitted on a non-empty reference
multiset `R`, the score of every query `x` is
`1 - 2 * min(greater, smaller) / |R|` with
`equal = count(r == x)` (NaN equal to NaN), `greater = count(r > x) + equal/2`
and `smaller = count(r < x) + equal/2`; and on the reference
`[-3,-2,-1,0,1,2,3]` the query `2.5` scores `1 - 2/7`. -/
theorem c1_median_cdf_score_formula (R : List Val) (x : Val) (h : R ≠ []) :
    medianCDFQuantileScore R x =
      1 - 2 * min ((R.countP (fun r => valLt x r) : ℚ) + (R.countP (fun r => valEq x r) : ℚ) / 2)
        ((R.countP (fun r => valLt r x) : ℚ) + (R.countP (fun r => valEq x r) : ℚ) / 2)
        / (R.length : ℚ) ∧
    medianCDFQuantileScore
      [some (-3), some (-2), some (-1), some 0, some 1, some 2, some 3] (some (5/2))
      = 1 - 2 / 7 := by
  constructor
  · unfold medianCDFQuantileScore greater_samples smaller_samples equal_samples
    rw [min_comm]
  · norm_num [medianCDFQuantileScore, greater_samples, smaller_samples, equal_samples,
      List.countP_cons, valLt, valEq, min_def]

/-- Witness for C1 at the concrete reference `[0, 1]` and query `1`. -/
theorem c1_witness :
    ([some 0, some 1] : List Val) ≠ [] ∧
    (medianCDFQuantileScore [some 0, some 1] (some 1) =
      1 - 2 * min (((List.countP (fun r => valLt (some 1) r) [some 0, some 1] : ℕ) : ℚ)
          + ((List.countP (fun r => valEq (some 1) r) [some 0, some 1] : ℕ) : ℚ) / 2)
        (((List.countP (fun r => valLt r (some 1)) [some 0, some 1] : ℕ) : ℚ)
          + ((List.countP (fun r => valEq (some 1) r) [some 0, some 1] : ℕ) : ℚ) / 2)
        / (([some 0, some 1] : List Val).length : ℚ) ∧
     medianCDFQuantileScore
       [some (-3), some (-2), some (-1), some 0, some 1, some 2, some 3] (some (5/2))
       = 1 - 2 / 7) :=
  ⟨by decide, c1_median_cdf_score_formula [some 0, some 1] (some 1) (by decide)⟩

/-- Claim C8: for a `MedianCDFQuantileScorer` fitted on a non-empty reference
set, every score lies in `[0, 1]`; it is `0` when the query sits exactly at the
median-quantile centre (both half-counts equal `|R|/2`), and `1` when the query
is strictly beyond every reference sample. -/
theorem c8_median_cdf_score_range (R : List Val) (x : Val) (h : R ≠ []) :
    0 ≤ medianCDFQuantileScore R x ∧ medianCDFQuantileScore R x ≤ 1 ∧
    (greater_samples R x = (R.length : ℚ) / 2 → smaller_samples R x = (R.length : ℚ) / 2 →
      medianCDFQuantileScore R x = 0) ∧
    ((∀ r ∈ R, valLt r x) → medianCDFQuantileScore R x = 1) := by
  have hn : 0 < (R.length : ℚ) := by
    exact_mod_cast List.length_pos.mpr h
  refine ⟨?_, medianCDFQuantileScore_le_one R x, ?_, ?_⟩
  · -- 0 ≤ score, because 2 * min(greater, smaller) ≤ |R|
    have hsum : greater_samples R x + smaller_samples R x ≤ (R.length : ℚ) := by
      have hc := valCounts_le R x
      unfold greater_samples smaller_samples equal_samples
      have hc2 : ((R.countP (fun r => valLt r x) + R.countP (fun r => valLt x r)
          + R.countP (fun r => valEq x r) : ℕ) : ℚ) ≤ (R.length : ℚ) := by
        exact_mod_cast hc
      push_cast at hc2
      linarith
    have hmin : 2 * min (greater_samples R x) (smaller_samples R x) ≤ (R.length : ℚ) := by
      have h1 := min_le_left (greater_samples R x) (smaller_samples R x)
      have h2 := min_le_right (greater_samples R x) (smaller_samples R x)
      linarith
    unfold medianCDFQuantileScore
    have hdiv : 2 * min (greater_samples R x) (smaller_samples R x) / (R.length : ℚ) ≤ 1 :=
      (div_le_one hn).mpr hmin
    linarith
  · -- score 0 at the exact centre
    intro hg hs
    unfold medianCDFQuantileScore
    rw [hg, hs, min_self]
    field_simp
  · -- score 1 strictly beyond every reference sample
    intro hall
    have hgt : R.countP (fun r => valLt r x) = R.length :=
      List.countP_eq_length.mpr (fun a ha => hall a ha)
    have hlt : R.countP (fun r => valLt x r) = 0 :=
      List.countP_eq_zero.mpr (fun a ha => by
        simp [(valLt_excl a x (hall a ha)).1])
    have heq : R.countP (fun r => valEq x r) = 0 :=
      List.countP_eq_zero.mpr (fun a ha => by
        simp [(valLt_excl a x (hall a ha)).2])
    unfold medianCDFQuantileScore greater_samples smaller_samples equal_samples
    rw [hgt, hlt, heq]
    have hminz : min ((R.length : ℚ) + (0 : ℕ) / 2) ((0 : ℕ) + ((0 : ℕ) : ℚ) / 2) = 0 := by
      push_cast
      rw [min_eq_right (by linarith)]
      ring
    push_cast
    rw [min_eq_right (by linarith)]
    field_simp

/-- Witness for C8 at the concrete reference `[0, 1, 2]` and query `1`. -/
theorem c8_witness :
    ([some 0, some 1, some 2] : List Val) ≠ [] ∧
    (0 ≤ medianCDFQuantileScore [some 0, some 1, some 2] (some 1) ∧
     medianCDFQuantileScore [some 0, some 1, some 2] (some 1) ≤ 1 ∧
     (greater_samples [some 0, some 1, some 2] (some 1)
        = (([some 0, some 1, some 2] : List Val).length : ℚ) / 2 →
      smaller_samples [some 0, some 1, some 2] (some 1)
        = (([some 0, some 1, some 2] : List Val).length : ℚ) / 2 →
      medianCDFQuantileScore [some 0, some 1, some 2] (some 1) = 0) ∧
     ((∀ r ∈ ([some 0, some 1, some 2] : List Val), valLt r (some 1)) →
      medianCDFQuantileScore [some 0, some 1, some 2] (some 1) = 1)) :=
  ⟨by decide, c8_median_cdf_score_range [some 0, some 1, some 2] (some 1) (by decide)⟩

/-! ### Claims about RescaledMedianCDFQuantileScorer and ITAnomalyScorer -/

/-- Claim C3: with both scorers fitted on the same reference samples, the
rescaled score equals `-log(1 - inner_score)` whenever the inner score is not
1; when `1 - inner_score = 0` the argument is clamped to the positive epsilon
before the logarithm, so the logarithm is taken of a strictly positive
rational (a finite value). -/
theorem c3_rescaled_score_relation (eps : ℚ) (R : List Val) (x : Val) (heps : 0 < eps) :
    (medianCDFQuantileScore R x ≠ 1 →
      rescaledMedianCDFQuantileScore eps R x =
        -Real.log (1 - (medianCDFQuantileScore R x : ℝ))) ∧
    (1 - medianCDFQuantileScore R x = 0 →
      rescaledMedianCDFQuantileScore eps R x = -Real.log ((eps : ℚ) : ℝ)) ∧
    0 < rescaledScoreArg eps R x := by
  refine ⟨?_, ?_, ?_⟩
  · intro hne
    have hs : 1 - medianCDFQuantileScore R x ≠ 0 := fun h0 => hne (by linarith)
    simp only [rescaledMedianCDFQuantileScore, rescaledScoreArg, if_neg hs]
    push_cast
    ring_nf
  · intro h0
    simp only [rescaledMedianCDFQuantileScore, rescaledScoreArg, if_pos h0]
  · by_cases h0 : 1 - medianCDFQuantileScore R x = 0
    · simp only [rescaledScoreArg, if_pos h0]
      exact heps
    · simp only [rescaledScoreArg, if_neg h0]
      have hle := medianCDFQuantileScore_le_one R x
      exact lt_of_le_of_ne (by linarith) (Ne.symm h0)

/-- Witness for C3 at `eps = 1/100000`, reference `[0]`, query `1`. -/
theorem c3_witness :
    (0 : ℚ) < 1/100000 ∧
    ((medianCDFQuantileScore [some 0] (some 1) ≠ 1 →
      rescaledMedianCDFQuantileScore (1/100000) [some 0] (some 1) =
        -Real.log (1 - (medianCDFQuantileScore [some 0] (some 1) : ℝ))) ∧
     (1 - medianCDFQuantileScore [some 0] (some 1) = 0 →
      rescaledMedianCDFQuantileScore (1/100000) [some 0] (some 1) =
        -Real.log (((1/100000 : ℚ) : ℝ))) ∧
     0 < rescaledScoreArg (1/100000) [some 0] (some 1)) :=
  ⟨by norm_num, c3_rescaled_score_relation (1/100000) [some 0] (some 1) (by norm_num)⟩

/-- Claim C2: an `ITAnomalyScorer` fitted on reference samples stores the inner
scores of the reference samples as its reference scores, and scores a query
point with inner score `s` as
`-log((count(reference_scores >= s) + 0.5) / (|reference_scores| + 0.5))`. -/
theorem c2_it_score_formula (g : Val → ℚ) (refs : List Val) (x : Val) :
    itReferenceScores g refs = refs.map g ∧
    itScore g refs x =
      -Real.log ((((((itReferenceScores g refs).countP (fun t => decide (g x ≤ t))) : ℚ) + 1 / 2)
        / (((itReferenceScores g refs).length : ℚ) + 1 / 2) : ℚ)) :=
  ⟨rfl, rfl⟩

/-- Claim C9: for a fixed fitted reference distribution, the IT score is
monotonically non-decreasing in the raw score of the inner scorer. -/
theorem c9_it_score_monotone (g : Val → ℚ) (refs : List Val) (x y : Val) (h : g x ≤ g y) :
    itScore g refs x ≤ itScore g refs y := by
  have hcount : (itReferenceScores g refs).countP (fun t => decide (g y ≤ t))
      ≤ (itReferenceScores g refs).countP (fun t => decide (g x ≤ t)) :=
    List.countP_mono_left (fun t _ ht => by
      simp only [decide_eq_true_eq] at ht ⊢
      exact le_trans h ht)
  have hpos_y : (0 : ℚ) < itTailProb (itReferenceScores g refs) (g y) := by
    unfold itTailProb
    positivity
  have hratio : itTailProb (itReferenceScores g refs) (g y)
      ≤ itTailProb (itReferenceScores g refs) (g x) := by
    unfold itTailProb
    gcongr
  unfold itScore
  apply neg_le_neg
  apply Real.log_le_log
  · exact_mod_cast hpos_y
  · exact_mod_cast hratio

/-- Witness for C9 with inner scorer `Option.getD 0`, reference `[0, 1]`,
queries `0` and `1`. -/
theorem c9_witness :
    (fun v : Val => v.getD 0) (some 0) ≤ (fun v : Val => v.getD 0) (some 1) ∧
    itScore (fun v : Val => v.getD 0) [some 0, some 1] (some 0) ≤
      itScore (fun v : Val => v.getD 0) [some 0, some 1] (some 1) :=
  ⟨by norm_num, c9_it_score_monotone (fun v : Val => v.getD 0) [some 0, some 1]
    (some 0) (some 1) (by norm_num)⟩

/-! ### Claim about scoring before fitting -/

/-- Claim C7, amended: calling `score` before `fit` never returns a value for
any of the six scorers.  The five scorers with explicit guards (and the
rescaled wrapper, whose owned inner scorer is constructed unfitted) raise the
`ValueError` "Scorer has not been fitted!"; `ITAnomalyScorer.score` has no
guard of its own: it propagates whatever its wrapped scorer raises (the inner
not-fitted `ValueError` when the wrapped scorer is also unfitted), and when
the wrapped scorer was fitted externally it raises a `TypeError` from
evaluating `None >= ndarray`. -/
theorem c7_score_before_fit_raises (eps : ℚ) (density : ℚ → ℚ)
    (innerScore : List Val → Except String (List ℚ)) (X : List Val) (Y : List ℚ) :
    medianCDF_scoreE none X = .error notFittedMsg ∧
    rescaled_scoreE eps none X = .error notFittedMsg ∧
    it_scoreE (medianCDF_scoreE none) none X = .error notFittedMsg ∧
    (∀ out, it_scoreE innerScore none X ≠ .ok out) ∧
    meanDeviation_scoreE none Y = .error notFittedMsg ∧
    medianDeviation_scoreE none Y = .error notFittedMsg ∧
    inverseDensity_scoreE density false Y = .error notFittedMsg := by
  refine ⟨rfl, rfl, rfl, ?_, rfl, rfl, rfl⟩
  intro out hok
  unfold it_scoreE at hok
  cases hinner : innerScore X with
  | error e => rw [hinner] at hok; exact Except.noConfusion hok
  | ok ss => rw [hinner] at hok; exact Except.noConfusion hok

/-- Counterexample for C7 as stated: an `ITAnomalyScorer` whose wrapped scorer
was fitted externally (here a `MedianCDFQuantileScorer` fitted on `[0, 1]`)
but whose own `fit` was never called raises a `TypeError`, not the clear
not-fitted `ValueError` used everywhere else in the module. -/
theorem c7_counterexample :
    it_scoreE (medianCDF_scoreE (some [some 0, some 1])) none [some 0]
      = .error noneGeMsg ∧
    noneGeMsg ≠ notFittedMsg :=
  ⟨rfl, by decide⟩

/-! ### Claims about the propensity-score matching estimator -/

/-- With both partitions non-empty, the matching phase succeeds and produces an
`(att, atc)` pair. -/
theorem computeAttAtc_ok (data : List Row) (ht : treatedRows data ≠ [])
    (hc : controlRows data ≠ []) : ∃ p : ℚ × ℚ, computeAttAtc data = .ok p := by
  have hT : (treatedRows data).length ≠ 0 := by
    simpa [List.length_eq_zero] using ht
  have hC : (controlRows data).length ≠ 0 := by
    simpa [List.length_eq_zero] using hc
  have hTQ : ((treatedRows data).length : ℚ) ≠ 0 := Nat.cast_ne_zero.mpr hT
  have hCQ : ((controlRows data).length : ℚ) ≠ 0 := Nat.cast_ne_zero.mpr hC
  unfold computeAttAtc kneighbors pydiv
  simp only [List.length_map, if_neg hT, if_neg hC, if_neg hTQ, if_neg hCQ]
  exact ⟨_, rfl⟩

/-- With an empty treated or control partition the matching phase raises. -/
theorem computeAttAtc_error (data : List Row)
    (h : treatedRows data = [] ∨ controlRows data = []) :
    ∃ msg, computeAttAtc data = .error msg := by
  by_cases hc : controlRows data = []
  · refine ⟨"ValueError: Found array with 0 sample(s) while a minimum of 1 is required.", ?_⟩
    unfold computeAttAtc kneighbors
    simp [hc]
  · rcases h with ht | hc2
    · have hC : (controlRows data).length ≠ 0 := by
        simpa [List.length_eq_zero] using hc
      refine ⟨"ValueError: Found array with 0 sample(s) while a minimum of 1 is required by NearestNeighbors.", ?_⟩
      unfold computeAttAtc kneighbors
      simp [ht, hC]
    · exact absurd hc2 hc

/-- Claim C4: with non-empty treated and control partitions, the "ate" result
is exactly the partition-size weighted average of the "att" and "atc" results
on the same data. -/
theorem c4_ate_weighted_average (data : List Row) (tv cv : ℚ)
    (ht : treatedRows data ≠ []) (hc : controlRows data ≠ []) :
    ∃ att atc,
      (estimate_effect data tv cv "att").map (fun e => e.estimate) = .ok att ∧
      (estimate_effect data tv cv "atc").map (fun e => e.estimate) = .ok atc ∧
      (estimate_effect data tv cv "ate").map (fun e => e.estimate) =
        .ok ((att * ((treatedRows data).length : ℚ) + atc * ((controlRows data).length : ℚ))
          / (((treatedRows data).length : ℚ) + ((controlRows data).length : ℚ))) := by
  obtain ⟨⟨a, c⟩, hac⟩ := computeAttAtc_ok data ht hc
  have hT : 0 < (treatedRows data).length := List.length_pos.mpr ht
  have hsum : ((treatedRows data).length : ℚ) + ((controlRows data).length : ℚ) ≠ 0 := by
    have h1 : (0 : ℚ) < ((treatedRows data).length : ℚ) := by exact_mod_cast hT
    have h2 : (0 : ℚ) ≤ ((controlRows data).length : ℚ) := by positivity
    linarith
  refine ⟨a, c, ?_, ?_, ?_⟩ <;>
    simp [estimate_effect, hac, selectTargetEst, pydiv, hsum, Except.map]

/-- Witness for C4 at a two-row dataset with one treated and one control unit. -/
theorem c4_witness :
    treatedRows [⟨1, 3, 1/2⟩, ⟨0, 1, 1/4⟩] ≠ [] ∧
    controlRows [⟨1, 3, 1/2⟩, ⟨0, 1, 1/4⟩] ≠ [] ∧
    (∃ att atc,
      (estimate_effect [⟨1, 3, 1/2⟩, ⟨0, 1, 1/4⟩] 1 0 "att").map (fun e => e.estimate)
        = .ok att ∧
      (estimate_effect [⟨1, 3, 1/2⟩, ⟨0, 1, 1/4⟩] 1 0 "atc").map (fun e => e.estimate)
        = .ok atc ∧
      (estimate_effect [⟨1, 3, 1/2⟩, ⟨0, 1, 1/4⟩] 1 0 "ate").map (fun e => e.estimate) =
        .ok ((att * ((treatedRows [⟨1, 3, 1/2⟩, ⟨0, 1, 1/4⟩]).length : ℚ)
            + atc * ((controlRows [⟨1, 3, 1/2⟩, ⟨0, 1, 1/4⟩]).length : ℚ))
          / (((treatedRows [⟨1, 3, 1/2⟩, ⟨0, 1, 1/4⟩]).length : ℚ)
            + ((controlRows [⟨1, 3, 1/2⟩, ⟨0, 1, 1/4⟩]).length : ℚ)))) :=
  ⟨by decide, by decide,
    c4_ate_weighted_average [⟨1, 3, 1/2⟩, ⟨0, 1, 1/4⟩] 1 0 (by decide) (by decide)⟩

/-- Claim C5, amended: with an empty treated or empty control partition,
`estimate_effect` raises (the sklearn empty-input `ValueError` at the
nearest-neighbour step; the would-be division by zero in the averaging step is
itself a raising `ZeroDivisionError` in Python) - it never returns a
NaN/Infinity result. -/
theorem c5_empty_partition_raises (data : List Row) (tv cv : ℚ) (tu : String)
    (h : treatedRows data = [] ∨ controlRows data = []) :
    ∃ msg, estimate_effect data tv cv tu = .error msg := by
  obtain ⟨msg, hm⟩ := computeAttAtc_error data h
  refine ⟨msg, ?_⟩
  unfold estimate_effect
  rw [hm]

/-- Witness for the amended C5 on a dataset with a single control row. -/
theorem c5_witness :
    (treatedRows [⟨0, 1, 1/2⟩] = [] ∨ controlRows [⟨0, 1, 1/2⟩] = []) ∧
    (∃ msg, estimate_effect [⟨0, 1, 1/2⟩] 1 0 "att" = .error msg) :=
  ⟨Or.inl rfl, c5_empty_partition_raises [⟨0, 1, 1/2⟩] 1 0 "att" (Or.inl rfl)⟩

/-- Counterexample for C5 as stated: on a dataset whose control partition is
empty, `estimate_effect` raises an error instead of returning a NaN/Infinity
value. -/
theorem c5_counterexample :
    estimate_effect [⟨1, 5, 1/2⟩] 1 0 "ate" =
      .error "ValueError: Found array with 0 sample(s) while a minimum of 1 is required." ∧
    (estimate_effect [⟨1, 5, 1/2⟩] 1 0 "ate").isOk = false :=
  ⟨rfl, rfl⟩

/-- Claim C6, amended: an unsupported `target_units` string fails with the
invalid-argument `ValueError` whose message is the literal
"Target units string value not supported" (the message does not enumerate the
supported values); for the three supported values, on data with non-empty
treated and control partitions, `estimate_effect` returns an estimate and does
not raise. -/
theorem c6_target_units_validation (data : List Row) (tv cv : ℚ) (tu : String)
    (ht : treatedRows data ≠ []) (hc : controlRows data ≠ [])
    (hbad : tu ≠ "att" ∧ tu ≠ "atc" ∧ tu ≠ "ate") :
    estimate_effect data tv cv tu = .error "Target units string value not supported" ∧
    (∀ good ∈ (["att", "atc", "ate"] : List String),
      ∃ e, estimate_effect data tv cv good = .ok e) := by
  obtain ⟨⟨a, c⟩, hac⟩ := computeAttAtc_ok data ht hc
  have hT : 0 < (treatedRows data).length := List.length_pos.mpr ht
  have hsum : ((treatedRows data).length : ℚ) + ((controlRows data).length : ℚ) ≠ 0 := by
    have h1 : (0 : ℚ) < ((treatedRows data).length : ℚ) := by exact_mod_cast hT
    have h2 : (0 : ℚ) ≤ ((controlRows data).length : ℚ) := by positivity
    linarith
  refine ⟨?_, ?_⟩
  · simp [estimate_effect, hac, selectTargetEst, hbad.1, hbad.2.1, hbad.2.2]
  · intro good hg
    fin_cases hg
    · exact ⟨⟨a, cv, tv, data.map (fun r => r.propensity)⟩,
        by simp [estimate_effect, hac, selectTargetEst]⟩
    · exact ⟨⟨c, cv, tv, data.map (fun r => r.propensity)⟩,
        by simp [estimate_effect, hac, selectTargetEst]⟩
    · exact ⟨⟨(a * ((treatedRows data).length : ℚ) + c * ((controlRows data).length : ℚ))
          / (((treatedRows data).length : ℚ) + ((controlRows data).length : ℚ)),
          cv, tv, data.map (fun r => r.propensity)⟩,
        by simp [estimate_effect, hac, selectTargetEst, pydiv, hsum]⟩

/-- Witness for the amended C6 at a two-row dataset and the unsupported
string "units". -/
theorem c6_witness :
    treatedRows [⟨1, 2, 1/2⟩, ⟨0, 1, 1/2⟩] ≠ [] ∧
    controlRows [⟨1, 2, 1/2⟩, ⟨0, 1, 1/2⟩] ≠ [] ∧
    (("units" : String) ≠ "att" ∧ ("units" : String) ≠ "atc" ∧ ("units" : String) ≠ "ate") ∧
    (estimate_effect [⟨1, 2, 1/2⟩, ⟨0, 1, 1/2⟩] 1 0 "units" =
        .error "Target units string value not supported" ∧
      (∀ good ∈ (["att", "atc", "ate"] : List String),
        ∃ e, estimate_effect [⟨1, 2, 1/2⟩, ⟨0, 1, 1/2⟩] 1 0 good = .ok e)) :=
  ⟨by decide, by decide, by decide,
    c6_target_units_validation [⟨1, 2, 1/2⟩, ⟨0, 1, 1/2⟩] 1 0 "units"
      (by decide) (by decide) (by decide)⟩

/-- Counterexample for C6 as stated: the error message raised for an
unsupported `target_units` value is "Target units string value not supported",
which mentions none of the supported values "att", "atc", "ate". -/
theorem c6_counterexample :
    estimate_effect [⟨1, 2, 1/2⟩, ⟨0, 1, 1/2⟩] 1 0 "xyz" =
      .error "Target units string value not supported" ∧
    strMentions "Target units string value not supported" "att" = false ∧
    strMentions "Target units string value not supported" "atc" = false ∧
    strMentions "Target units string value not supported" "ate" = false :=
  ⟨rfl, rfl, rfl, rfl⟩

/-- Claim C10: the partitions are always selected by comparing the treatment
column with the literal values 1 and 0, and two calls differing only in
`treatment_value` / `control_value` return the same point estimate (those
arguments are merely recorded in the returned record). -/
theorem c10_treatment_value_ignored (data : List Row) (tv tv2 cv cv2 : ℚ) (tu : String) :
    treatedRows data = data.filter (fun r => r.treatment == 1) ∧
    controlRows data = data.filter (fun r => r.treatment == 0) ∧
    (estimate_effect data tv cv tu).map (fun e => e.estimate) =
      (estimate_effect data tv2 cv2 tu).map (fun e => e.estimate) ∧
    (estimate_effect data tv cv tu).map (fun e => (e.treatment_value, e.control_value)) =
      (estimate_effect data tv cv tu).map (fun _ => (tv, cv)) := by
  refine ⟨rfl, rfl, ?_, ?_⟩
  · unfold estimate_effect
    cases computeAttAtc data with
    | error e => rfl
    | ok p =>
      cases p with
      | mk a c =>
        dsimp only
        cases selectTargetEst a c (treatedRows data).length (controlRows data).length tu with
        | error e => rfl
        | ok est => rfl
  · unfold estimate_effect
    cases computeAttAtc data with
    | error e => rfl
    | ok p =>
      cases p with
      | mk a c =>
        dsimp only
        cases selectTargetEst a c (treatedRows data).length (controlRows data).length tu with
        | error e => rfl
        | ok est => rfl
